import Mathlib

/-!
Shallow embedding of `crates/sdk/src/install.rs`: a version-addressed
circuit-artifact installer.  Paths are modelled as strings with Unix
`PathBuf::join` semantics, the streaming download as a fold over a list of
chunk events, and the installer as a function from an environment of I/O
outcomes to a result together with a trace of observable events.
-/

namespace SP1Install

/-- Models Rust `Path::is_absolute` on Unix: the path has a root, i.e. it
begins with the separator character. -/
def isAbsolute (s : String) : Bool :=
  match s.data with
  | [] => false
  | c :: _ => c = '/'

/-- Models Rust `PathBuf::join` on Unix: if the child is absolute it replaces
the base path, otherwise it is appended after a separator.  The result is the
byte content of the joined `PathBuf`; equality of `PathBuf`s is not byte
equality but component equality, modelled below by `pathComponents`. -/
def pathJoin (base child : String) : String :=
  if isAbsolute child then child else base ++ "/" ++ child

/-- `CIRCUIT_ARTIFACTS_URL_BASE` from the source: the base URL for the S3
bucket containing the circuit artifacts. -/
def CIRCUIT_ARTIFACTS_URL_BASE : String :=
  "https://sp1-circuits.s3-us-east-2.amazonaws.com"

/-- `circuit_artifacts_dir` from the source:
`dirs::home_dir().unwrap().join(".sp1").join("circuits").join(SP1_CIRCUIT_VERSION)`.
The home directory (resolved by `dirs::home_dir().unwrap()`) and the
compile-time constant `SP1_CIRCUIT_VERSION` (defined outside this file) are
passed as parameters. -/
def circuit_artifacts_dir (home version : String) : String :=
  pathJoin (pathJoin (pathJoin home (".sp1")) ("circuits")) version

/-- `install_circuit_artifacts_dir` from the source, a second function with
the identical body:
`dirs::home_dir().unwrap().join(".sp1").join("circuits").join(SP1_CIRCUIT_VERSION)`. -/
def install_circuit_artifacts_dir (home version : String) : String :=
  pathJoin (pathJoin (pathJoin home (".sp1")) ("circuits")) version

/-- Splits a character list at every `'/'`; groups may be empty (adjacent,
leading or trailing separators produce empty groups). -/
def splitSep : List Char → List (List Char)
  | [] => [[]]
  | c :: rest =>
      let r := splitSep rest
      if c = '/' then [] :: r
      else
        match r with
        | [] => [[c]]
        | g :: gs => (c :: g) :: gs

/-- The non-empty `'/'`-separated segments of a character list.  Repeated and
trailing separators contribute nothing, as in Rust `Path::components`. -/
def nonEmptySegs (l : List Char) : List (List Char) :=
  (splitSep l).filter (fun g => decide (g ≠ []))

/-- Removes `"."` segments, which Rust `Path::components` normalizes away
(except a leading one of a relative path, handled in `pathComponents`). -/
def dropDots (gs : List (List Char)) : List (List Char) :=
  gs.filter (fun g => decide (g ≠ ['.']))

/-- Models Rust `Path::components()` on Unix, which also defines `Path` and
`PathBuf` equality: a root marker (`RootDir`), then the segments with empty
and `"."` segments normalized away — except that a leading `"."` segment of a
relative path is kept (the `CurDir` component).  `".."` segments are kept
(`ParentDir` is not normalized away). -/
def pathComponents (s : String) : Bool × List (List Char) :=
  if isAbsolute s then (true, dropDots (nonEmptySegs s.data))
  else
    match nonEmptySegs s.data with
    | [] => (false, [])
    | t :: rest =>
        if t = ['.'] then (false, ['.'] :: dropDots rest)
        else (false, dropDots (t :: rest))

/-- The components a version string contributes inside a joined path: all its
empty and `"."` segments are normalized away, because inside the joined path
its segments are never at the beginning. -/
def versionSegs (v : String) : List (List Char) :=
  dropDots (nonEmptySegs v.data)

/-- One item of the response byte stream seen by `download_file`:
either a read error (`item.or(Err(...))` fails), or a chunk of `len` bytes
whose `file.write_all(&chunk)` call succeeds (`writeOk = true`) or fails. -/
inductive ChunkEvent
  | readError
  | chunk (len : Nat) (writeOk : Bool)
  deriving DecidableEq, Repr

/-- The HTTP response: `res.content_length()` and the body stream. -/
structure HttpResponse where
  contentLength : Option Nat
  body : List ChunkEvent
  deriving DecidableEq, Repr

/-- Outcome of a `download_file` call: the returned `Result<(), String>`,
the lengths of the chunks written to the sink file (in order), and the
progress-bar positions reported by `pb.set_position` (in order). -/
structure DownloadResult where
  result : Except String Unit
  written : List Nat
  reported : List Nat
  deriving Repr

/-- The `while let Some(item) = stream.next().await` loop of `download_file`:
each chunk is written to the file, then
`let new = min(downloaded + (chunk.len() as u64), total_size)` is reported.
Returns the result, the written chunk lengths and the reported positions. -/
def downloadLoop (total : Nat) : Nat → List ChunkEvent →
    Except String Unit × List Nat × List Nat
  | _, [] => (Except.ok (), [], [])
  | _, ChunkEvent.readError :: _ =>
      (Except.error ("Error while downloading file"), [], [])
  | downloaded, ChunkEvent.chunk len true :: rest =>
      let new := min (downloaded + len) total
      let r := downloadLoop total new rest
      (r.1, len :: r.2.1, new :: r.2.2)
  | _, ChunkEvent.chunk _ false :: _ =>
      (Except.error ("Error while writing to file"), [], [])

/-- `download_file` from the source.  `send = none` models a failed
`client.get(url).send().await`; otherwise the response's content length is
demanded up front and the body is streamed by `downloadLoop` starting from
`downloaded = 0`. -/
def download_file (url : String) (send : Option HttpResponse) : DownloadResult :=
  match send with
  | none =>
      ⟨Except.error ("Failed to GET from \x27" ++ url ++ "\x27"), [], []⟩
  | some res =>
      match res.contentLength with
      | none =>
          ⟨Except.error ("Failed to get content length from \x27" ++ url ++ "\x27"),
           [], []⟩
      | some total_size =>
          let r := downloadLoop total_size 0 res.body
          ⟨r.1, r.2.1, r.2.2⟩

/-- `true` exactly for a stream item that is a chunk whose write succeeds. -/
def isOkChunk : ChunkEvent → Bool
  | ChunkEvent.chunk _ true => true
  | _ => false

/-- Byte length of a stream item (0 for a read error). -/
def chunkLen : ChunkEvent → Nat
  | ChunkEvent.chunk len _ => len
  | ChunkEvent.readError => 0

/-- Observable events of an installer run: console notices (`println!`),
the `create_dir_all` attempt, the network GET issued for a URL, and the
`tar` extraction invocation. -/
inductive Event
  | notice (msg : String)
  | createDir (path : String)
  | downloadReq (url : String)
  | extract (archive dest : String)
  deriving DecidableEq, Repr

/-- Environment of I/O outcomes for one installer run: whether the build
directory already exists, whether `create_dir_all`, `NamedTempFile::new`,
`Client::builder().build()` succeed, the path of the temp file, the network
response, whether `Command::spawn` and `Child::wait` succeed, and the exit
status `tar` terminates with. -/
structure Env where
  home : String
  dirExists : Bool
  createDirOk : Bool
  tempfileOk : Bool
  clientOk : Bool
  tempPath : String
  send : Option HttpResponse
  tarSpawnOk : Bool
  tarWaitOk : Bool
  tarExitCode : Int
  deriving DecidableEq, Repr

/-- `install_circuit_artifacts` from the source (compiled only with the
`network` feature).  Each `.expect(...)`/`.unwrap()` panic is modelled as
`Except.error` with the panic message.  Note that the source runs
`res.wait().unwrap()` and discards the returned `ExitStatus`: `env.tarExitCode`
is deliberately never consulted, mirroring the source. -/
def install_circuit_artifacts (env : Env) (build_dir version : String) :
    Except String Unit × List Event :=
  if env.createDirOk then
    let download_url := CIRCUIT_ARTIFACTS_URL_BASE ++ "/" ++ version ++ ".tar.gz"
    if env.tempfileOk then
      if env.clientOk then
        match (download_file download_url env.send).result with
        | Except.ok _ =>
            if env.tarSpawnOk then
              if env.tarWaitOk then
                (Except.ok (),
                 [Event.createDir build_dir, Event.downloadReq download_url,
                  Event.extract env.tempPath build_dir,
                  Event.notice ("[sp1] downloaded " ++ download_url ++ " to \""
                    ++ build_dir ++ "\"")])
              else
                (Except.error ("failed to wait for tar"),
                 [Event.createDir build_dir, Event.downloadReq download_url,
                  Event.extract env.tempPath build_dir])
            else
              (Except.error ("failed to extract tarball"),
               [Event.createDir build_dir, Event.downloadReq download_url])
        | Except.error _ =>
            (Except.error ("failed to download file"),
             [Event.createDir build_dir, Event.downloadReq download_url])
      else
        (Except.error ("failed to create reqwest client"),
         [Event.createDir build_dir])
    else
      (Except.error ("failed to create tempfile"),
       [Event.createDir build_dir])
  else
    (Except.error ("failed to create build directory"),
     [Event.createDir build_dir])

/-- `try_install_circuit_artifacts` from the source.  `networkFeature` models
the compile-time `cfg` flag `feature = "network"`: when it is false, the
`cfg_if!` else-branch is empty and nothing is installed. -/
def try_install_circuit_artifacts (networkFeature : Bool) (env : Env)
    (version : String) : Except String String × List Event :=
  let build_dir := circuit_artifacts_dir env.home version
  if env.dirExists then
    (Except.ok build_dir,
     [Event.notice ("[sp1] circuit artifacts already seem to exist at " ++ build_dir ++
        ". if you want to re-download them, delete the directory")])
  else if networkFeature then
    let r := install_circuit_artifacts env build_dir version
    (r.1.map (fun _ => build_dir),
     Event.notice ("[sp1] circuit artifacts for version " ++ version ++
        " do not exist at " ++ build_dir ++ ". downloading...") :: r.2)
  else
    (Except.ok build_dir, [])

/-! ### Helper lemmas -/

lemma string_append_left_cancel {a b c : String} (h : a ++ b = a ++ c) : b = c := by
  have hd : (a ++ b).data = (a ++ c).data := by rw [h]
  simp only [String.data_append] at hd
  exact String.ext (List.append_cancel_left hd)

lemma pathJoin_relative (base child : String) (h : isAbsolute child = false) :
    pathJoin base child = base ++ "/" ++ child := by
  simp [pathJoin, h]

lemma slash_data : ("/" : String).data = ['/'] := rfl

lemma append_data_ne_nil (a b : String) (hb : b.data ≠ []) : (a ++ b).data ≠ [] := by
  rw [String.data_append]
  intro h
  exact hb (List.append_eq_nil.mp h).2

lemma splitSep_ne_nil : ∀ l : List Char, splitSep l ≠ [] := by
  intro l
  induction l with
  | nil => simp [splitSep]
  | cons c rest ih =>
      by_cases hc : c = '/'
      · simp [splitSep, hc]
      · rcases hr : splitSep rest with _ | ⟨g, gs⟩
        · exact absurd hr ih
        · simp [splitSep, hc, hr]

lemma splitSep_append (a b : List Char) :
    splitSep (a ++ '/' :: b) = splitSep a ++ splitSep b := by
  induction a with
  | nil => simp [splitSep]
  | cons c rest ih =>
      by_cases hc : c = '/'
      · simp [splitSep, hc, ih]
      · rcases hr : splitSep rest with _ | ⟨g, gs⟩
        · exact absurd hr (splitSep_ne_nil rest)
        · simp [splitSep, hc, ih, hr]

lemma nonEmptySegs_append (a b : List Char) :
    nonEmptySegs (a ++ '/' :: b) = nonEmptySegs a ++ nonEmptySegs b := by
  unfold nonEmptySegs
  rw [splitSep_append, List.filter_append]

lemma dropDots_append (a b : List (List Char)) :
    dropDots (a ++ b) = dropDots a ++ dropDots b := by
  unfold dropDots
  rw [List.filter_append]

lemma isAbsolute_append_left (a b : String) (h : a.data ≠ []) :
    isAbsolute (a ++ b) = isAbsolute a := by
  unfold isAbsolute
  rw [String.data_append]
  rcases ha : a.data with _ | ⟨c, l⟩
  · exact absurd ha h
  · simp

lemma data_join (s v : String) : (s ++ "/" ++ v).data = s.data ++ '/' :: v.data := by
  simp [String.data_append, slash_data]

lemma nonEmptySegs_ne_nil_of_relative (s : String) (hs : s.data ≠ [])
    (habs : isAbsolute s = false) : nonEmptySegs s.data ≠ [] := by
  unfold isAbsolute at habs
  rcases hd : s.data with _ | ⟨c, l⟩
  · exact absurd hd hs
  · rw [hd] at habs
    have hc : ¬ c = '/' := by simpa using habs
    rcases hr : splitSep l with _ | ⟨g, gs⟩
    · exact absurd hr (splitSep_ne_nil l)
    · simp [nonEmptySegs, splitSep, hc, hr, List.filter_cons]

lemma pathComponents_join (s v : String) (hs : s.data ≠ []) :
    pathComponents (s ++ "/" ++ v)
      = ((pathComponents s).1, (pathComponents s).2 ++ versionSegs v) := by
  have habs : isAbsolute (s ++ "/" ++ v) = isAbsolute s := by
    have h1 : isAbsolute ((s ++ "/") ++ v) = isAbsolute (s ++ "/") :=
      isAbsolute_append_left _ _ (by simp [String.data_append, slash_data])
    have h2 : isAbsolute (s ++ "/") = isAbsolute s := isAbsolute_append_left _ _ hs
    rw [h1, h2]
  have hraw : nonEmptySegs ((s ++ "/" ++ v)).data
      = nonEmptySegs s.data ++ nonEmptySegs v.data := by
    rw [data_join]
    exact nonEmptySegs_append _ _
  cases hA : isAbsolute s with
  | true =>
      simp [pathComponents, habs, hA, versionSegs, nonEmptySegs_append,
        dropDots_append, data_join]
  | false =>
      have hRS := nonEmptySegs_ne_nil_of_relative s hs hA
      rcases hr : nonEmptySegs s.data with _ | ⟨t, rest⟩
      · exact absurd hr hRS
      · by_cases ht : t = ['.']
        · subst ht
          simp [pathComponents, habs, hA, versionSegs, nonEmptySegs_append,
            hr, dropDots_append, data_join]
        · have hkeep : dropDots (t :: (rest ++ nonEmptySegs v.data))
              = t :: (dropDots rest ++ dropDots (nonEmptySegs v.data)) := by
            simp [dropDots, List.filter_cons, List.filter_append, ht]
          have hkeep2 : dropDots (t :: rest) = t :: dropDots rest := by
            simp [dropDots, List.filter_cons, ht]
          simp [pathComponents, habs, hA, versionSegs, nonEmptySegs_append,
            hr, ht, hkeep, hkeep2, data_join]

lemma resolve_relative_eq (home v : String) (hv : isAbsolute v = false) :
    circuit_artifacts_dir home v
      = (home ++ "/" ++ (".sp1") ++ "/" ++ ("circuits")) ++ "/" ++ v := by
  unfold circuit_artifacts_dir
  rw [pathJoin_relative _ _ hv, pathJoin_relative _ _ (by decide),
    pathJoin_relative _ _ (by decide)]

lemma downloadLoop_reported_mono_bounded (total : Nat) :
    ∀ (events : List ChunkEvent) (d : Nat), d ≤ total →
      List.Chain' (fun a b => a ≤ b) (d :: (downloadLoop total d events).2.2)
      ∧ ∀ x ∈ (downloadLoop total d events).2.2, x ≤ total := by
  intro events
  induction events with
  | nil => intro d _; simp [downloadLoop]
  | cons e rest ih =>
      intro d hd
      cases e with
      | readError => simp [downloadLoop]
      | chunk len writeOk =>
          cases writeOk with
          | false => simp [downloadLoop]
          | true =>
              have hnew : min (d + len) total ≤ total := Nat.min_le_right _ _
              have hdnew : d ≤ min (d + len) total :=
                le_min (Nat.le_add_right _ _) hd
              obtain ⟨hchain, hbound⟩ := ih (min (d + len) total) hnew
              simp only [downloadLoop]
              constructor
              · exact List.chain'_cons.mpr ⟨hdnew, hchain⟩
              · intro x hx
                rcases List.mem_cons.mp hx with h | h
                · exact h ▸ hnew
                · exact hbound x h

lemma downloadLoop_ok_iff (total : Nat) :
    ∀ (events : List ChunkEvent) (d : Nat),
      ((downloadLoop total d events).1 = Except.ok ()
        ↔ ∀ e ∈ events, isOkChunk e = true) := by
  intro events
  induction events with
  | nil => intro d; simp [downloadLoop]
  | cons e rest ih =>
      intro d
      cases e with
      | readError => simp [downloadLoop, isOkChunk]
      | chunk len writeOk =>
          cases writeOk with
          | false => simp [downloadLoop, isOkChunk]
          | true => simp [downloadLoop, isOkChunk, ih]

lemma downloadLoop_result_cases (total : Nat) :
    ∀ (events : List ChunkEvent) (d : Nat),
      (downloadLoop total d events).1 = Except.ok ()
      ∨ (downloadLoop total d events).1 = Except.error ("Error while downloading file")
      ∨ (downloadLoop total d events).1 = Except.error ("Error while writing to file") := by
  intro events
  induction events with
  | nil => intro d; simp [downloadLoop]
  | cons e rest ih =>
      intro d
      cases e with
      | readError => simp [downloadLoop]
      | chunk len writeOk =>
          cases writeOk with
          | false => simp [downloadLoop]
          | true => simpa [downloadLoop] using ih (min (d + len) total)

lemma downloadLoop_written_of_ok (total : Nat) :
    ∀ (events : List ChunkEvent) (d : Nat),
      (∀ e ∈ events, isOkChunk e = true) →
      (downloadLoop total d events).2.1 = events.map chunkLen := by
  intro events
  induction events with
  | nil => intro d _; simp [downloadLoop]
  | cons e rest ih =>
      intro d hall
      cases e with
      | readError => exact absurd (hall _ (List.mem_cons_self _ _)) (by simp [isOkChunk])
      | chunk len writeOk =>
          cases writeOk with
          | false => exact absurd (hall _ (List.mem_cons_self _ _)) (by simp [isOkChunk])
          | true =>
              have hrest : ∀ e ∈ rest, isOkChunk e = true :=
                fun e he => hall e (List.mem_cons_of_mem _ he)
              simp [downloadLoop, chunkLen, ih _ hrest]

lemma min_add_shift (a b T : Nat) : min (min a T + b) T = min (a + b) T := by
  omega

lemma downloadLoop_reported_get (total : Nat) :
    ∀ (events : List ChunkEvent) (d : Nat) (i : Nat)
      (hi : i < ((downloadLoop total d events).2.2).length),
      ((downloadLoop total d events).2.2).get ⟨i, hi⟩
        = min (d + (((downloadLoop total d events).2.1).take (i + 1)).sum) total := by
  intro events
  induction events with
  | nil => intro d i hi; simp [downloadLoop] at hi
  | cons e rest ih =>
      intro d i hi
      cases e with
      | readError => simp [downloadLoop] at hi
      | chunk len writeOk =>
          cases writeOk with
          | false => simp [downloadLoop] at hi
          | true =>
              cases i with
              | zero => simp [downloadLoop]
              | succ j =>
                  have hj : j < ((downloadLoop total (min (d + len) total) rest).2.2).length := by
                    simpa [downloadLoop] using hi
                  have heq := ih (min (d + len) total) j hj
                  simp only [downloadLoop, List.get_cons_succ,
                    List.take_succ_cons, List.sum_cons]
                  rw [heq, ← Nat.add_assoc, min_add_shift]

/-! ### Path resolution claims -/

/-- C3 counterexample: `circuit_artifacts_dir` is not injective in the
version, under `PathBuf` equality (`pathComponents`).  The distinct relative
versions `"a"` and `"a/"` resolve to equal paths (a trailing separator is
normalized away by Rust `Path` equality), and the distinct versions
`"/h/.sp1/circuits/a"` and `"a"` resolve, under home `"/h"`, to the same
path even byte-for-byte, because `PathBuf::join` replaces the whole path when
its argument is absolute. -/
theorem circuit_artifacts_dir_not_injective :
    (("a" : String) ≠ ("a/" : String)
      ∧ pathComponents (circuit_artifacts_dir ("/h") ("a"))
          = pathComponents (circuit_artifacts_dir ("/h") ("a/")))
    ∧ (("/h/.sp1/circuits/a" : String) ≠ ("a" : String)
      ∧ circuit_artifacts_dir ("/h") ("/h/.sp1/circuits/a")
          = circuit_artifacts_dir ("/h") ("a")) :=
  ⟨⟨by decide, by decide⟩, ⟨by decide, rfl⟩⟩

/-- C3 (amended): `circuit_artifacts_dir` is pure, total and deterministic —
the same version always yields the same path — and for relative (non-absolute)
version strings it is injective up to path spelling: two versions resolve to
equal paths (Rust `PathBuf` equality, i.e. equal `pathComponents`) exactly
when they consist of the same segments after dropping empty and `"."`
segments; in particular, distinct versions that are not different spellings of
the same relative path yield distinct paths. -/
theorem circuit_artifacts_dir_deterministic_injective_relative
    (home v1 v2 : String) (h1 : isAbsolute v1 = false)
    (h2 : isAbsolute v2 = false) :
    circuit_artifacts_dir home v1 = circuit_artifacts_dir home v1
    ∧ (pathComponents (circuit_artifacts_dir home v1)
          = pathComponents (circuit_artifacts_dir home v2)
        ↔ versionSegs v1 = versionSegs v2) := by
  refine ⟨rfl, ?_⟩
  have hbase : ((home ++ "/" ++ (".sp1") ++ "/" ++ ("circuits")).data) ≠ [] :=
    append_data_ne_nil _ _ (by decide)
  rw [resolve_relative_eq home v1 h1, resolve_relative_eq home v2 h2,
    pathComponents_join _ _ hbase, pathComponents_join _ _ hbase]
  constructor
  · intro h
    exact List.append_cancel_left (congrArg Prod.snd h)
  · intro h
    rw [h]

/-- Witness for the amended C3, at home `"/h"` and versions `"a"`, `"b"`:
the versions have different segments, and the resolved paths differ. -/
theorem circuit_artifacts_dir_injective_witness :
    isAbsolute ("a") = false ∧ isAbsolute ("b") = false
    ∧ versionSegs ("a") ≠ versionSegs ("b")
    ∧ pathComponents (circuit_artifacts_dir ("/h") ("a"))
        ≠ pathComponents (circuit_artifacts_dir ("/h") ("b"))
    ∧ (circuit_artifacts_dir ("/h") ("a") = circuit_artifacts_dir ("/h") ("a")
        ∧ (pathComponents (circuit_artifacts_dir ("/h") ("a"))
              = pathComponents (circuit_artifacts_dir ("/h") ("b"))
            ↔ versionSegs ("a") = versionSegs ("b"))) :=
  ⟨by decide, by decide, by decide, by decide,
    circuit_artifacts_dir_deterministic_injective_relative ("/h") ("a") ("b")
      (by decide) (by decide)⟩

/-- C10: `circuit_artifacts_dir` and `install_circuit_artifacts_dir` compute
the same path for every home directory and version. -/
theorem circuit_artifacts_dir_eq_install_circuit_artifacts_dir
    (home version : String) :
    circuit_artifacts_dir home version = install_circuit_artifacts_dir home version :=
  rfl

/-! ### Download claims -/

/-- C4: for every response advertising a total content length, the sequence of
positions reported by `download_file` is non-decreasing and never exceeds the
advertised total, for any chunk sequence (the final `min` clamps an
overshooting chunk). -/
theorem download_file_progress_monotone_bounded
    (url : String) (resp : HttpResponse) (total : Nat)
    (h : resp.contentLength = some total) :
    List.Chain' (fun a b => a ≤ b) ((download_file url (some resp)).reported)
    ∧ ∀ x ∈ (download_file url (some resp)).reported, x ≤ total := by
  have h0 := downloadLoop_reported_mono_bounded total resp.body 0 (Nat.zero_le _)
  have hrep : (download_file url (some resp)).reported
      = (downloadLoop total 0 resp.body).2.2 := by
    simp [download_file, h]
  rw [hrep]
  exact ⟨h0.1.tail, h0.2⟩

/-- A two-chunk response of total length 100 used as a concrete download. -/
def respA : HttpResponse :=
  ⟨some 100, [ChunkEvent.chunk 60 true, ChunkEvent.chunk 60 true]⟩

/-- Witness for C4: concrete run on `respA` (reported positions `[60, 100]`). -/
theorem download_file_progress_monotone_bounded_witness :
    List.Chain' (fun a b => a ≤ b) ((download_file ("u") (some respA)).reported)
    ∧ ∀ x ∈ (download_file ("u") (some respA)).reported, x ≤ 100 :=
  download_file_progress_monotone_bounded ("u") respA 100 rfl

/-- C5: when the response advertises no content length, `download_file` fails
with the missing-length error and writes no bytes to the sink file. -/
theorem download_file_missing_length (url : String) (resp : HttpResponse)
    (h : resp.contentLength = none) :
    (download_file url (some resp)).result
        = Except.error ("Failed to get content length from \x27" ++ url ++ "\x27")
    ∧ (download_file url (some resp)).written = [] := by
  simp [download_file, h]

/-- A response with a body but no content length. -/
def respNoLen : HttpResponse := ⟨none, [ChunkEvent.chunk 10 true]⟩

/-- Witness for C5: concrete run on `respNoLen`. -/
theorem download_file_missing_length_witness :
    (download_file ("u") (some respNoLen)).result
        = Except.error ("Failed to get content length from \x27u\x27")
    ∧ (download_file ("u") (some respNoLen)).written = [] :=
  download_file_missing_length ("u") respNoLen rfl

/-- C7: `download_file` writes each received chunk to the sink immediately (on
an error-free stream the written chunks are exactly the received ones, in
order), every reported position is the clamped running total of the bytes
written so far, and a read error or a write error anywhere in the stream makes
the call fail with the corresponding stream-error message. -/
theorem download_file_streams_and_stream_errors
    (url : String) (resp : HttpResponse) (total : Nat)
    (h : resp.contentLength = some total) :
    ((∀ e ∈ resp.body, isOkChunk e = true) →
        (download_file url (some resp)).written = resp.body.map chunkLen)
    ∧ (∀ i, ∀ hi : i < ((download_file url (some resp)).reported).length,
        ((download_file url (some resp)).reported).get ⟨i, hi⟩
          = min ((((download_file url (some resp)).written).take (i + 1)).sum) total)
    ∧ ((∃ e ∈ resp.body, isOkChunk e = false) →
        (download_file url (some resp)).result
            = Except.error ("Error while downloading file")
        ∨ (download_file url (some resp)).result
            = Except.error ("Error while writing to file")) := by
  have hD : download_file url (some resp)
      = ⟨(downloadLoop total 0 resp.body).1, (downloadLoop total 0 resp.body).2.1,
         (downloadLoop total 0 resp.body).2.2⟩ := by
    simp [download_file, h]
  rw [hD]
  refine ⟨?_, ?_, ?_⟩
  · intro hall
    exact downloadLoop_written_of_ok total resp.body 0 hall
  · intro i hi
    have hg := downloadLoop_reported_get total resp.body 0 i hi
    simpa using hg
  · rintro ⟨e, he, hbad⟩
    have hne : (downloadLoop total 0 resp.body).1 ≠ Except.ok () := by
      intro hok
      have hall := (downloadLoop_ok_iff total resp.body 0).mp hok e he
      rw [hbad] at hall
      exact Bool.false_ne_true hall
    rcases downloadLoop_result_cases total resp.body 0 with h1 | h2 | h3
    · exact absurd h1 hne
    · exact Or.inl h2
    · exact Or.inr h3

/-- A response whose stream has one good chunk followed by a read error. -/
def respB : HttpResponse :=
  ⟨some 100, [ChunkEvent.chunk 10 true, ChunkEvent.readError]⟩

/-- Witness for C7: concrete run on `respB` (one written chunk, then the
read-error failure). -/
theorem download_file_streams_and_stream_errors_witness :
    ((∀ e ∈ respB.body, isOkChunk e = true) →
        (download_file ("u") (some respB)).written = respB.body.map chunkLen)
    ∧ (∀ i, ∀ hi : i < ((download_file ("u") (some respB)).reported).length,
        ((download_file ("u") (some respB)).reported).get ⟨i, hi⟩
          = min ((((download_file ("u") (some respB)).written).take (i + 1)).sum) 100)
    ∧ ((∃ e ∈ respB.body, isOkChunk e = false) →
        (download_file ("u") (some respB)).result
            = Except.error ("Error while downloading file")
        ∨ (download_file ("u") (some respB)).result
            = Except.error ("Error while writing to file")) :=
  download_file_streams_and_stream_errors ("u") respB 100 rfl

/-! ### Installer claims -/

/-- C1: if the install directory already exists when
`try_install_circuit_artifacts` is invoked, the call returns that directory
path unchanged and the only observable activity is a console notice — no
directory creation, no network download, no extraction. -/
theorem try_install_existing_dir_is_noop (networkFeature : Bool) (env : Env)
    (version : String) (h : env.dirExists = true) :
    (try_install_circuit_artifacts networkFeature env version).1
        = Except.ok (circuit_artifacts_dir env.home version)
    ∧ ∀ e ∈ (try_install_circuit_artifacts networkFeature env version).2,
        ∃ m, e = Event.notice m := by
  constructor
  · simp [try_install_circuit_artifacts, h]
  · intro e he
    simp [try_install_circuit_artifacts, h] at he
    exact ⟨_, he⟩

/-- Environment in which the install directory already exists. -/
def envExisting : Env :=
  { home := "/home/u", dirExists := true, createDirOk := true, tempfileOk := true,
    clientOk := true, tempPath := "/tmp/artifacts", send := some respA,
    tarSpawnOk := true, tarWaitOk := true, tarExitCode := 0 }

/-- Witness for C1: concrete run with an existing directory. -/
theorem try_install_existing_dir_is_noop_witness :
    (try_install_circuit_artifacts true envExisting ("v1")).1
        = Except.ok (circuit_artifacts_dir envExisting.home ("v1"))
    ∧ ∀ e ∈ (try_install_circuit_artifacts true envExisting ("v1")).2,
        ∃ m, e = Event.notice m :=
  try_install_existing_dir_is_noop true envExisting ("v1") rfl

/-- C9: with the `network` feature compiled out, `try_install_circuit_artifacts`
is check-only: for every environment (directory existing or not) it returns the
expected install directory path and performs no installation activity (at most
a console notice is emitted). -/
theorem try_install_without_network_is_check_only (env : Env) (version : String) :
    (try_install_circuit_artifacts false env version).1
        = Except.ok (circuit_artifacts_dir env.home version)
    ∧ ∀ e ∈ (try_install_circuit_artifacts false env version).2,
        ∃ m, e = Event.notice m := by
  cases h : env.dirExists
  · constructor
    · simp [try_install_circuit_artifacts, h]
    · intro e he
      simp [try_install_circuit_artifacts, h] at he
  · constructor
    · simp [try_install_circuit_artifacts, h]
    · intro e he
      simp [try_install_circuit_artifacts, h] at he
      exact ⟨_, he⟩

/-- C6: `install_circuit_artifacts` attempts to create the build directory
first (the creation attempt is the head of the event trace, hence before any
download); if the filesystem rejects the creation, the call fails with the
directory-creation panic message and no download request is ever issued; and
any trace containing a download request had a successful directory creation. -/
theorem install_dir_created_before_download (env : Env) (build_dir version : String) :
    ((install_circuit_artifacts env build_dir version).2).head?
        = some (Event.createDir build_dir)
    ∧ (env.createDirOk = false →
        (install_circuit_artifacts env build_dir version).1
            = Except.error ("failed to create build directory")
        ∧ ∀ u, Event.downloadReq u ∉ (install_circuit_artifacts env build_dir version).2)
    ∧ (∀ u, Event.downloadReq u ∈ (install_circuit_artifacts env build_dir version).2 →
        env.createDirOk = true) := by
  simp only [install_circuit_artifacts]
  cases env.createDirOk <;> cases env.tempfileOk <;> cases env.clientOk <;>
    cases env.tarSpawnOk <;> cases env.tarWaitOk <;>
    rcases (download_file (CIRCUIT_ARTIFACTS_URL_BASE ++ "/" ++ version ++ ".tar.gz")
      env.send).result with e | v <;>
    simp

/-- Environment in which directory creation is rejected by the filesystem. -/
def envNoCreate : Env :=
  { home := "/home/u", dirExists := false, createDirOk := false, tempfileOk := true,
    clientOk := true, tempPath := "/tmp/artifacts", send := some respA,
    tarSpawnOk := true, tarWaitOk := true, tarExitCode := 0 }

/-- Witness for C6: concrete run with rejected directory creation. -/
theorem install_dir_created_before_download_witness :
    ((install_circuit_artifacts envNoCreate ("/d") ("v1")).2).head?
        = some (Event.createDir ("/d"))
    ∧ ((install_circuit_artifacts envNoCreate ("/d") ("v1")).1
        = Except.error ("failed to create build directory")
        ∧ ∀ u, Event.downloadReq u ∉ (install_circuit_artifacts envNoCreate ("/d") ("v1")).2) := by
  have h := install_dir_created_before_download envNoCreate ("/d") ("v1")
  exact ⟨h.1, h.2.1 rfl⟩

/-- C8: every download request issued by `install_circuit_artifacts` is for
the URL `<CIRCUIT_ARTIFACTS_URL_BASE>/<version>.tar.gz`. -/
theorem install_download_url_format (env : Env) (build_dir version : String) :
    ∀ u, Event.downloadReq u ∈ (install_circuit_artifacts env build_dir version).2 →
      u = CIRCUIT_ARTIFACTS_URL_BASE ++ "/" ++ version ++ ".tar.gz" := by
  simp only [install_circuit_artifacts]
  cases env.createDirOk <;> cases env.tempfileOk <;> cases env.clientOk <;>
    cases env.tarSpawnOk <;> cases env.tarWaitOk <;>
    rcases (download_file (CIRCUIT_ARTIFACTS_URL_BASE ++ "/" ++ version ++ ".tar.gz")
      env.send).result with e | v <;>
    intro u hu <;> simp_all

/-- Environment for a fully successful install run. -/
def envInstall : Env :=
  { home := "/home/u", dirExists := false, createDirOk := true, tempfileOk := true,
    clientOk := true, tempPath := "/tmp/artifacts.tar.gz", send := some respA,
    tarSpawnOk := true, tarWaitOk := true, tarExitCode := 0 }

/-- Witness for C8: the URL of the download request of a concrete run. -/
theorem install_download_url_format_witness :
    ("https://sp1-circuits.s3-us-east-2.amazonaws.com/v1.tar.gz" : String)
      = CIRCUIT_ARTIFACTS_URL_BASE ++ "/" ++ ("v1") ++ ".tar.gz" :=
  install_download_url_format envInstall ("/d") ("v1")
    ("https://sp1-circuits.s3-us-east-2.amazonaws.com/v1.tar.gz") (by decide)

/-- Environment identical to a successful run except that the spawned `tar`
process exits with status 1 (e.g. a corrupt archive). -/
def envTarFails : Env :=
  { home := "/home/u", dirExists := false, createDirOk := true, tempfileOk := true,
    clientOk := true, tempPath := "/tmp/artifacts.tar.gz", send := some respA,
    tarSpawnOk := true, tarWaitOk := true, tarExitCode := 1 }

/-- C2 (code bug, evaluated at the failing input): with a successful download
but `tar` exiting with status 1, `install_circuit_artifacts` nevertheless
returns success and emits the success notice — the source runs
`res.wait().unwrap()`, which only fails if waiting itself fails, and discards
the exit status, so a failed extraction is not translated into any error. -/
theorem install_ignores_tar_exit_status :
    envTarFails.tarExitCode = 1
    ∧ (install_circuit_artifacts envTarFails ("/home/u/.sp1/circuits/v1") ("v1")).1
        = Except.ok ()
    ∧ Event.notice ("[sp1] downloaded " ++ CIRCUIT_ARTIFACTS_URL_BASE ++ "/" ++ ("v1")
          ++ ".tar.gz" ++ " to \"" ++ "/home/u/.sp1/circuits/v1" ++ "\"")
        ∈ (install_circuit_artifacts envTarFails ("/home/u/.sp1/circuits/v1") ("v1")).2
    ∧ (try_install_circuit_artifacts true envTarFails ("v1")).1
        = Except.ok (circuit_artifacts_dir ("/home/u") ("v1")) := by
  refine ⟨rfl, rfl, by decide, rfl⟩

end SP1Install
